import Mathlib

/-!
Verification of the kretoAI script-generator backend (`app.py`).

Python strings are embedded as `List Char` (`PyStr`); Python dicts keyed by
uuid strings are embedded as association lists keyed by `Nat`, preserving
insertion order and key uniqueness of the handlers (which always insert fresh
uuid keys).  External collaborators (the LLM service, the remote transcript
provider, the PDF/DOCX extraction libraries, the filesystem) are passed in as
explicit oracle values, exactly at the call boundary the code uses them.
Machine timestamps (`datetime.now().isoformat()`) are abstracted as `Nat`
parameters; they are only stored and compared for identity, never parsed.
The unused `processing_status` and `document_insights` buckets of the
per-user store are omitted.
-/

/-- A Python string, embedded as its sequence of characters. -/
abbrev PyStr := List Char

/-- Python `str.strip()` (no argument): drop leading and trailing whitespace. -/
def pyStrip (s : PyStr) : PyStr :=
  ((s.dropWhile Char.isWhitespace).reverse.dropWhile Char.isWhitespace).reverse

/-- Python `str.lower()` on the ASCII texts the code handles. -/
def pyLower (s : PyStr) : PyStr := s.map Char.toLower

/-- Helper for `pyWordCount`: count maximal non-whitespace runs, tracking
whether we are currently inside a word. -/
def countWordsAux : Bool → PyStr → Nat
  | _, [] => 0
  | inWord, c :: rest =>
      if c.isWhitespace then countWordsAux false rest
      else (if inWord then 0 else 1) + countWordsAux true rest

/-- Python `len(s.split())`: number of whitespace-separated words. -/
def pyWordCount (s : PyStr) : Nat := countWordsAux false s

/-- Python `d[k] = v` on a dict: overwrite in place if the key exists,
otherwise append (dicts preserve insertion order). -/
def dictInsert {κ α : Type} [DecidableEq κ] (k : κ) (v : α) : List (κ × α) → List (κ × α)
  | [] => [(k, v)]
  | (k', v') :: rest =>
      if k = k' then (k, v) :: rest else (k', v') :: dictInsert k v rest

/-- Python `del d[k]`. -/
def dictErase {κ α : Type} [DecidableEq κ] (k : κ) : List (κ × α) → List (κ × α)
  | [] => []
  | (k', v') :: rest =>
      if k = k' then rest else (k', v') :: dictErase k rest

/-- In-place mutation of the value stored at a key (`d[k].field = ...`). -/
def dictModify {κ α : Type} [DecidableEq κ] (k : κ) (f : α → α) : List (κ × α) → List (κ × α)
  | [] => []
  | (k', v) :: rest =>
      if k = k' then (k', f v) :: rest else (k', v) :: dictModify k f rest

/-! ## Chunk budgeting (`analyze_inspiration_content`, `analyze_documents`)

The two per-item budgeters in `EnhancedScriptGenerator` share one shape:
join the texts with a separator; if the join exceeds `max_chars`, divide the
budget evenly and head/tail-sample each over-share text around a marker. -/

/-- Python `sep.join(texts)`. -/
def pyJoin (sep : PyStr) : List PyStr → PyStr
  | [] => []
  | [t] => t
  | t :: ts => t ++ sep ++ pyJoin sep ts

/-- Python `t[-h:]`: the last `h` characters, except that `t[-0:]` is the
whole string (the `h = 0` case follows Python's slice semantics). -/
def pyTail (h : Nat) (t : PyStr) : PyStr :=
  if h = 0 then t else t.drop (t.length - h)

/-- One text's treatment in the sampling branch: texts longer than their
per-item share keep a head half and a tail half of the share around the
content-continues marker (`transcript[:half] + marker + transcript[-half:]`). -/
def sampleItem (marker : PyStr) (chunk : Nat) (t : PyStr) : PyStr :=
  if chunk < t.length then t.take (chunk / 2) ++ marker ++ pyTail (chunk / 2) t
  else t

/-- The budgeting step shared by `analyze_inspiration_content` (lines 713-728)
and `analyze_documents` (lines 749-770): return the join unchanged when it is
within `maxChars`, otherwise sample every text at the per-item share
`maxChars // len(texts)` (the whole budget when there is a single text). -/
def chunkBudget (sep marker : PyStr) (maxChars : Nat) (texts : List PyStr) : PyStr :=
  let combined := pyJoin sep texts
  if maxChars < combined.length then
    let chunk := if 1 < texts.length then maxChars / texts.length else maxChars
    pyJoin sep (texts.map (sampleItem marker chunk))
  else combined

/-- The separator of `analyze_inspiration_content`. -/
def vidSep : PyStr := "\n\n---VIDEO SEPARATOR---\n\n".toList

/-- The content-continues marker of `analyze_inspiration_content`. -/
def vidMarker : PyStr := "\n[...CONTENT CONTINUES...]\n".toList

/-- The separator of `analyze_documents`. -/
def docSep : PyStr := "\n\n---DOCUMENT SEPARATOR---\n\n".toList

/-- The document-continues marker of `analyze_documents`. -/
def docMarker : PyStr := "\n[...DOCUMENT CONTINUES...]\n".toList

/-- The budgeted text submitted by `analyze_inspiration_content`
(`max_chars = 50000`). -/
def inspirationBudget : List PyStr → PyStr := chunkBudget vidSep vidMarker 50000

/-- The budgeted text submitted by `analyze_documents` (`max_chars = 60000`). -/
def documentBudget : List PyStr → PyStr := chunkBudget docSep docMarker 60000

theorem pyJoin_length (sep : PyStr) :
    ∀ l : List PyStr, (pyJoin sep l).length = (l.map List.length).sum + sep.length * (l.length - 1)
  | [] => by simp [pyJoin]
  | [t] => by simp [pyJoin]
  | t :: t' :: ts => by
      have ih := pyJoin_length sep (t' :: ts)
      simp only [pyJoin, List.length_append, ih, List.map_cons, List.sum_cons, List.length_cons,
        Nat.add_sub_cancel, Nat.mul_add, Nat.mul_one]
      omega

theorem sampleItem_length_le (marker : PyStr) (chunk : Nat) (t : PyStr)
    (hchunk : 2 ≤ chunk) :
    (sampleItem marker chunk t).length ≤ chunk + marker.length := by
  unfold sampleItem
  split
  · next hlt =>
    have hhalf : chunk / 2 ≠ 0 := by omega
    simp only [pyTail, if_neg hhalf, List.length_append, List.length_take, List.length_drop]
    have h1 : chunk / 2 ≤ t.length := le_of_lt (lt_of_le_of_lt (Nat.div_le_self _ _) hlt)
    have h2 : chunk / 2 + chunk / 2 ≤ chunk := by omega
    omega
  · next hge => omega

/-! ## Document processing (`DocumentProcessor`)

The byte-level extraction libraries are external capabilities; each
extraction method's outcome is an oracle value.  `ExtAttempt` records the
text a PDF method accumulated and whether it completed without raising. -/

/-- Statistics attached to a processed document
(`DocumentProcessor._calculate_document_stats`). -/
structure DocStats where
  char_count : Nat
  word_count : Nat
  page_estimate : Nat
  read_time : Nat
  deriving DecidableEq, Repr

/-- `DocumentProcessor._calculate_document_stats`. -/
def calculate_document_stats (text : PyStr) : DocStats :=
  if text = [] then ⟨0, 0, 0, 0⟩
  else
    let wc := pyWordCount text
    ⟨text.length, wc, max 1 (wc / 250), max 1 (wc / 200)⟩

/-- The allowed upload extensions (`ALLOWED_EXTENSIONS`). -/
def allowedExtensions : List PyStr :=
  ["txt".toList, "pdf".toList, "doc".toList, "docx".toList]

/-- Python `filename.rsplit('.', 1)[1]`: the part after the last dot. -/
def extOf (filename : PyStr) : PyStr :=
  (filename.reverse.takeWhile (fun c => c ≠ '.')).reverse

/-- `DocumentProcessor.allowed_file`. -/
def allowed_file (filename : PyStr) : Bool :=
  filename.contains '.' && allowedExtensions.contains (pyLower (extOf filename))

/-- Outcome of one PDF extraction library call: the text accumulated over the
page loop, and whether the loop completed without an exception. -/
structure ExtAttempt where
  text : PyStr
  ok : Bool
  deriving DecidableEq, Repr

/-- `DocumentProcessor.extract_text_from_pdf` (lines 70-97): try PyMuPDF
first and return its text when it completed with more than 50 characters
after stripping; otherwise append PyPDF2's text to whatever PyMuPDF
accumulated, returning `none` when PyPDF2 raises or the combined stripped
text still has at most 50 characters. -/
def extract_text_from_pdf (mupdf pypdf : ExtAttempt) : Option PyStr :=
  if mupdf.ok && decide (50 < (pyStrip mupdf.text).length) then some mupdf.text
  else if pypdf.ok then
    let text := mupdf.text ++ pypdf.text
    if 50 < (pyStrip text).length then some text else none
  else none

/-- The truncation marker appended when a document exceeds `max_chars`. -/
def truncMarker : PyStr := "\n\n[Document truncated for processing...]".toList

/-- The error string for empty or unreadable extractions. -/
def emptyUnreadableMsg : PyStr := "Could not extract meaningful text from document".toList

/-- `DocumentProcessor.process_document` (lines 152-189).  The format
dispatch picks one extraction method; `extracted` is that method's return
value (`none` models both a `None` return and a raised exception, which the
method wrappers convert to `None`). -/
def process_document (filename : PyStr) (extracted : Option PyStr) :
    Except PyStr (PyStr × DocStats × PyStr) :=
  let file_ext := pyLower (extOf filename)
  if ¬ allowedExtensions.contains file_ext then
    .error "Unsupported file format".toList
  else
    match extracted with
    | none => .error emptyUnreadableMsg
    | some text =>
        if text = [] ∨ (pyStrip text).length < 50 then .error emptyUnreadableMsg
        else
          let text' := if 100000 < text.length then text.take 100000 ++ truncMarker else text
          .ok (text', calculate_document_stats text', file_ext)

/-! ## Video URL handling (`VideoProcessor`) -/

/-- The character class `[^&\n?#]` of the video-id capture groups. -/
def idCharAllowed (c : Char) : Bool :=
  !(c = '&' || c = '\n' || c = '?' || c = '#')

/-- The alternation prefixes of the first `extract_video_id` pattern, in the
order the regex alternation tries them. -/
def idPrefixes : List PyStr :=
  ["youtube.com/watch?v=".toList, "youtu.be/".toList, "youtube.com/embed/".toList]

/-- At one start position, try each alternation branch in order: the branch
matches when its literal prefix is present and at least one allowed
character follows; the capture is the maximal allowed run (greedy `+`). -/
def tryIdPrefixes : List PyStr → PyStr → Option PyStr
  | [], _ => none
  | p :: ps, s =>
      if p.isPrefixOf s then
        let cap := (s.drop p.length).takeWhile idCharAllowed
        if cap = [] then tryIdPrefixes ps s else some cap
      else tryIdPrefixes ps s

/-- `re.search` of the first pattern: scan start positions left to right. -/
def scanPattern1 : PyStr → Option PyStr
  | [] => none
  | s@(_ :: rest) =>
      match tryIdPrefixes idPrefixes s with
      | some cap => some cap
      | none => scanPattern1 rest

/-- Greedy `.*v=([^&\n?#]+)`: within one line, the capture at the rightmost
`v=` that is followed by at least one allowed character. -/
def findLastVCapture : PyStr → Option PyStr
  | [] => none
  | s@(_ :: rest) =>
      match findLastVCapture rest with
      | some cap => some cap
      | none =>
          if ("v=".toList).isPrefixOf s then
            let cap := (s.drop 2).takeWhile idCharAllowed
            if cap = [] then none else some cap
          else none

/-- `re.search` of the second pattern `youtube\.com/watch\?.*v=([^&\n?#]+)`:
find `youtube.com/watch?`, then the greedy `.*` (which cannot cross a
newline) selects the last `v=` capture on the rest of that line; on failure
the scan resumes at later start positions. -/
def scanPattern2 : PyStr → Option PyStr
  | [] => none
  | s@(_ :: rest) =>
      if ("youtube.com/watch?".toList).isPrefixOf s then
        match findLastVCapture ((s.drop 18).takeWhile (fun c => c ≠ '\n')) with
        | some cap => some cap
        | none => scanPattern2 rest
      else scanPattern2 rest

/-- `VideoProcessor.extract_video_id` (lines 220-230): the two regex
patterns tried in order. -/
def extract_video_id (youtube_url : PyStr) : Option PyStr :=
  match scanPattern1 youtube_url with
  | some cap => some cap
  | none => scanPattern2 youtube_url

/-- A character valid inside a URL scheme (`urllib`'s `scheme_chars`). -/
def isSchemeChar (c : Char) : Bool :=
  c.isAlphanum || c = '+' || c = '-' || c = '.'

/-- The scheme-stripping step of `urllib.parse.urlparse`: when the text
before the first colon is a well-formed scheme, continue after the colon. -/
def splitScheme (url : PyStr) : PyStr :=
  match url.findIdx? (fun c => c = ':') with
  | some i =>
      match url.take i with
      | [] => url
      | c :: cs => if c.isAlpha && cs.all isSchemeChar then url.drop (i + 1) else url
  | none => url

/-- `urlparse(url).netloc`: after `//`, up to the first `/`, `?` or `#`
(empty when the remainder does not start with `//`). -/
def urlNetloc (url : PyStr) : PyStr :=
  let rest := splitScheme url
  if ("//".toList).isPrefixOf rest then
    (rest.drop 2).takeWhile (fun c => !(c = '/' || c = '?' || c = '#'))
  else []

/-- Python `needle in hay` on strings: substring containment. -/
def containsSub (needle : PyStr) : PyStr → Bool
  | [] => decide (needle = [])
  | s@(_ :: rest) => needle.isPrefixOf s || containsSub needle rest

/-- The accepted domain list of `validate_youtube_url`. -/
def youtubeDomains : List PyStr :=
  ["youtube.com".toList, "youtu.be".toList, "www.youtube.com".toList]

/-- `VideoProcessor.validate_youtube_url` (lines 232-238): a *substring*
check of each accepted domain against the parsed netloc. -/
def validate_youtube_url (url : PyStr) : Bool :=
  let netloc := urlNetloc url
  youtubeDomains.any (fun d => containsSub d netloc)

/-! ## Transcript extraction retry loop (`VideoProcessor.extract_transcript_details`)

The remote provider is an oracle giving, per attempt, the outcome of the
direct fetch and of the transcript-list stage.  The wall-clock sleeps are
recorded as a list of slept durations so the backoff schedule is provable. -/

/-- Statistics attached to a completed transcript
(`VideoProcessor._calculate_transcript_stats`). -/
structure TranscriptStats where
  char_count : Nat
  word_count : Nat
  estimated_duration : Nat
  estimated_read_time : Nat
  deriving DecidableEq, Repr

/-- `VideoProcessor._calculate_transcript_stats`. -/
def calculate_transcript_stats (t : PyStr) : TranscriptStats :=
  if t = [] then ⟨0, 0, 0, 0⟩
  else
    let wc := pyWordCount t
    ⟨t.length, wc, max 1 (wc / 150), max 1 (wc / 200)⟩

/-- Outcome of `ytt_api.fetch` on one attempt: a fetched transcript text, or
one of the typed exceptions, or a generic exception carrying `str(e)`. -/
inductive DirectResult where
  | fetched (text : PyStr)
  | noTranscriptFound
  | videoUnavailable
  | transcriptsDisabled
  | exn (msg : PyStr)
  deriving DecidableEq, Repr

/-- Outcome of the transcript-list stage on one attempt: a selected
transcript's text, an empty available list, or any exception raised inside
the inner `try` (which the code catches as `inner_e`). -/
inductive ListStageResult where
  | found (text : PyStr)
  | noneAvailable
  | exn (msg : PyStr)
  deriving DecidableEq, Repr

/-- The remote transcript provider, per attempt index. -/
structure FetchOracle where
  direct : Nat → DirectResult
  listStage : Nat → ListStageResult

/-- Result and what one loop iteration decides: a final return value, or a
`continue` to the next attempt. -/
inductive StepResult where
  | final (res : Except PyStr (PyStr × TranscriptStats))
  | retryNext
  deriving Repr

/-- Whether the lowered error text signals a rate limit
(`"quota" in error_msg or "rate" in error_msg or "429" in error_msg`). -/
def isRateMsg (m : PyStr) : Bool :=
  let e := pyLower m
  containsSub "quota".toList e || containsSub "rate".toList e || containsSub "429".toList e

/-- The outer `except Exception` classification chain (lines 324-341). -/
def classifyOuterExn (maxRetries attempt : Nat) (m : PyStr) : StepResult :=
  let e := pyLower m
  if isRateMsg m then
    if attempt < maxRetries - 1 then .retryNext
    else .final (.error "API rate limit exceeded. Please try again in a few minutes".toList)
  else if containsSub "403".toList e || containsSub "forbidden".toList e then
    .final (.error "Access forbidden. Video might be private or restricted".toList)
  else if containsSub "404".toList e then
    .final (.error "Video not found. Please check the URL".toList)
  else if containsSub "blocked".toList e || containsSub "ipblocked".toList e then
    .final (.error "IP address blocked by YouTube. Try using a VPN or proxy".toList)
  else if attempt = maxRetries - 1 then
    .final (.error ("Error fetching transcript after ".toList ++ (toString maxRetries).toList
      ++ " attempts: ".toList ++ m))
  else .retryNext

/-- The transcript-list stage (lines 278-318): a found transcript succeeds
when its stripped text reaches 50 characters and is otherwise reported as too
short; an empty list is terminal; an inner exception retries unless this is
the last attempt. -/
def listPhase (o : FetchOracle) (maxRetries attempt : Nat) : StepResult :=
  match o.listStage attempt with
  | .found t =>
      if (pyStrip t).length < 50 then
        .final (.error "Transcript too short or incomplete".toList)
      else .final (.ok (t, calculate_transcript_stats t))
  | .noneAvailable =>
      .final (.error "No transcripts available for this video".toList)
  | .exn m =>
      if attempt = maxRetries - 1 then
        .final (.error ("Could not access transcript list - ".toList ++ m))
      else .retryNext

/-- One loop iteration of `extract_transcript_details` (lines 256-341): the
direct fetch returns early only when its stripped text reaches 50 characters,
`NoTranscriptFound` and a short direct text both fall through to the list
stage, and any other exception goes to the outer classification chain. -/
def attemptStep (o : FetchOracle) (maxRetries attempt : Nat) : StepResult :=
  match o.direct attempt with
  | .fetched t =>
      if 50 ≤ (pyStrip t).length then .final (.ok (t, calculate_transcript_stats t))
      else listPhase o maxRetries attempt
  | .noTranscriptFound => listPhase o maxRetries attempt
  | .videoUnavailable =>
      .final (.error "Video is unavailable, private, or doesn't exist".toList)
  | .transcriptsDisabled =>
      .final (.error "Transcripts are disabled for this video".toList)
  | .exn m => classifyOuterExn maxRetries attempt m

/-- The `for attempt in range(max_retries)` loop, structured over remaining
fuel.  The result is paired with the number of attempts made and the list of
backoff sleeps (`retry_delay * (attempt + 1)` before every attempt after the
first).  Exhausting the range falls through to the final failure message. -/
def attemptLoop (o : FetchOracle) (maxRetries retryDelay : Nat) :
    Nat → Nat → Except PyStr (PyStr × TranscriptStats) × Nat × List Nat
  | _, 0 => (.error "Failed to fetch transcript after multiple attempts".toList, 0, [])
  | attempt, fuel + 1 =>
      let sleeps := if 0 < attempt then [retryDelay * (attempt + 1)] else []
      match attemptStep o maxRetries attempt with
      | .final r => (r, 1, sleeps)
      | .retryNext =>
          let rec_ := attemptLoop o maxRetries retryDelay (attempt + 1) fuel
          (rec_.1, rec_.2.1 + 1, sleeps ++ rec_.2.2)

/-- `VideoProcessor.extract_transcript_details` (lines 248-343), with the
courtesy inter-call throttle (`rate_limit_wait`) outside the model: URL-shape
failure is immediate, otherwise the retry loop runs with `max_retries = 3`
and `retry_delay = 2` by default. -/
def extract_transcript_details (o : FetchOracle) (youtube_video_url : PyStr)
    (maxRetries retryDelay : Nat) :
    Except PyStr (PyStr × TranscriptStats) × Nat × List Nat :=
  match extract_video_id youtube_video_url with
  | none => (.error "Invalid YouTube URL format".toList, 0, [])
  | some _ => attemptLoop o maxRetries retryDelay 0 maxRetries

/-! ## Session state store (`user_data`) and route handlers

Each handler is a pure state transformer on one user's bucket; the uuid the
handler would mint and the current timestamp are passed in.  Handlers return
the new bucket paired with an `Except` mirroring the JSON error/success
response. -/

/-- Lifecycle states written into `video['status']` / `doc['status']`. -/
inductive SourceStatus where
  | pending
  | processing
  | completed
  | error
  deriving DecidableEq, Repr

/-- One entry of `folder['videos']`. -/
structure VideoData where
  url : PyStr
  title : PyStr
  status : SourceStatus
  transcript : Option PyStr
  stats : Option TranscriptStats
  added_at : Nat
  deriving DecidableEq, Repr

/-- One entry of `user_data[uid]['folders']`. -/
structure Folder where
  name : PyStr
  ftype : PyStr
  videos : List (Nat × VideoData)
  created_at : Nat
  deriving DecidableEq, Repr

/-- One entry of `user_data[uid]['documents']`. -/
structure DocumentData where
  filename : PyStr
  text : PyStr
  stats : DocStats
  file_type : PyStr
  processed_at : Nat
  status : SourceStatus
  deriving DecidableEq, Repr

/-- The populated form of `user_data[uid]['analysis_cache']`.  The code only
ever stores this dict whole (with `'analyzed': True`) or resets it to `{}`,
so the cache is embedded as an `Option`: `none` is the empty dict. -/
structure AnalysisCache where
  style_profile : PyStr
  inspiration_summary : PyStr
  document_insights : PyStr
  stats_personal : Nat
  stats_inspiration : Nat
  stats_documents : Nat
  timestamp : Nat
  deriving DecidableEq, Repr

/-- One `{user_message, ai_response, timestamp}` record of a chat session. -/
structure ChatMessage where
  user_message : PyStr
  ai_response : PyStr
  timestamp : Nat
  deriving DecidableEq, Repr

/-- One entry of `user_data[uid]['chat_sessions']`. -/
structure ChatSession where
  messages : List ChatMessage
  script_versions : List PyStr
  created_at : Nat
  deriving DecidableEq, Repr

/-- The current script record stored by `generate_from_prompt`. -/
structure Script where
  content : PyStr
  style_profile : PyStr
  topic_insights : PyStr
  document_insights : PyStr
  original_prompt : PyStr
  timestamp : Nat
  deriving DecidableEq, Repr

/-- One entry of `user_data[uid]['insights_cache']`, keyed by topic string. -/
structure InsightEntry where
  insights : PyStr
  videos : Nat
  documents : Nat
  timestamp : Nat
  deriving DecidableEq, Repr

/-- One user's bucket of the `user_data` store. -/
structure UserData where
  folders : List (Nat × Folder)
  analysis_cache : Option AnalysisCache
  chat_sessions : List (Nat × ChatSession)
  current_script : Option Script
  insights_cache : List (PyStr × InsightEntry)
  documents : List (Nat × DocumentData)
  deriving DecidableEq, Repr

/-- The fresh bucket the defaultdict creates on first access. -/
def UserData.empty : UserData := ⟨[], none, [], none, [], []⟩

/-- `create_folder` (lines 1314-1344): insert a new empty folder.  Note that
it does NOT touch `analysis_cache`. -/
def create_folder (ud : UserData) (name_raw ftype : PyStr) (fid now : Nat) :
    UserData × Except PyStr Nat :=
  let folder_name := pyStrip name_raw
  if folder_name = [] then (ud, .error "Folder name is required".toList)
  else
    ({ ud with folders := dictInsert fid ⟨folder_name, ftype, [], now⟩ ud.folders }, .ok fid)

/-- `delete_folder` (lines 1346-1355): remove the folder and clear the
analysis cache. -/
def delete_folder (ud : UserData) (fid : Nat) : UserData × Except PyStr Unit :=
  if (ud.folders.lookup fid).isSome then
    ({ ud with folders := dictErase fid ud.folders, analysis_cache := none }, .ok ())
  else (ud, .error "Folder not found".toList)

/-- The synchronous part of `add_video_to_folder` (lines 1384-1447): check
the folder, the stripped URL and `validate_youtube_url`, store the pending
video, clear the analysis cache and return; the transcript extraction spawns
on a background thread afterwards. -/
def add_video_to_folder (ud : UserData) (fid : Nat) (url_raw : PyStr) (vid now : Nat) :
    UserData × Except PyStr Nat :=
  if (ud.folders.lookup fid).isNone then (ud, .error "Folder not found".toList)
  else
    let video_url := pyStrip url_raw
    if video_url = [] then (ud, .error "Video URL is required".toList)
    else if ¬ validate_youtube_url video_url then (ud, .error "Invalid YouTube URL".toList)
    else
      let v : VideoData := ⟨video_url, "Processing...".toList, .pending, none, none, now⟩
      ({ ud with
          folders := dictModify fid (fun f => { f with videos := dictInsert vid v f.videos }) ud.folders,
          analysis_cache := none }, .ok vid)

/-- `delete_video_from_folder` (lines 1449-1461). -/
def delete_video_from_folder (ud : UserData) (fid vid : Nat) : UserData × Except PyStr Unit :=
  match ud.folders.lookup fid with
  | none => (ud, .error "Folder not found".toList)
  | some folder =>
      if (folder.videos.lookup vid).isSome then
        ({ ud with
            folders := dictModify fid (fun f => { f with videos := dictErase vid f.videos }) ud.folders,
            analysis_cache := none }, .ok ())
      else (ud, .error "Video not found".toList)

/-- `upload_document` (lines 860-922), after the request plumbing: an empty
filename and a disallowed extension are rejected, then `process_document`
runs on the chosen extraction method's output; on success the document is
stored as completed and the analysis cache cleared, on failure the state is
untouched. -/
def upload_document (ud : UserData) (file_id : Nat) (filename : PyStr)
    (extracted : Option PyStr) (now : Nat) : UserData × Except PyStr Unit :=
  if filename = [] then (ud, .error "No file selected".toList)
  else if ¬ allowed_file filename then (ud, .error "File type not supported".toList)
  else
    match process_document filename extracted with
    | .error e => (ud, .error e)
    | .ok (text, stats, file_type) =>
        let d : DocumentData := ⟨filename, text, stats, file_type, now, .completed⟩
        ({ ud with documents := dictInsert file_id d ud.documents, analysis_cache := none },
         .ok ())

/-- `delete_document` (lines 924-934). -/
def delete_document (ud : UserData) (file_id : Nat) : UserData × Except PyStr Unit :=
  if (ud.documents.lookup file_id).isSome then
    ({ ud with documents := dictErase file_id ud.documents, analysis_cache := none }, .ok ())
  else (ud, .error "Document not found".toList)

/-- `update_script` (lines 1617-1647): reject empty (stripped) text; mutate
the current script in place when one exists; append the text to the chat
session's version list when a session id is supplied and known; always answer
success. -/
def update_script (ud : UserData) (script_raw : PyStr) (chat_session_id : Option Nat)
    (now : Nat) : UserData × Except PyStr PyStr :=
  let new_script := pyStrip script_raw
  if new_script = [] then (ud, .error "Script content is required".toList)
  else
    let ud1 :=
      match ud.current_script with
      | some cs =>
          { ud with current_script := some { cs with content := new_script, timestamp := now } }
      | none => ud
    let ud2 :=
      match chat_session_id with
      | some sid =>
          if (ud1.chat_sessions.lookup sid).isSome then
            let addVersion := fun (c : ChatSession) =>
              { c with script_versions := c.script_versions ++ [new_script] }
            { ud1 with chat_sessions := dictModify sid addVersion ud1.chat_sessions }
          else ud1
      | none => ud1
    (ud2, .ok "Script updated successfully".toList)

/-! ## Status endpoint and script generation -/

/-- The JSON payload of `get_status`. -/
structure StatusInfo where
  total_folders : Nat
  total_videos : Nat
  completed_videos : Nat
  processing_videos : Nat
  error_videos : Nat
  total_documents : Nat
  completed_documents : Nat
  has_personal_videos : Bool
  has_inspiration_videos : Bool
  has_documents : Bool
  ready_for_analysis : Bool
  can_generate_script : Bool
  analysis_quality : PyStr
  deriving DecidableEq, Repr

/-- Every video paired with its folder's type, in iteration order. -/
def videosWithType (ud : UserData) : List (PyStr × VideoData) :=
  (ud.folders.map (fun p => p.2.videos.map (fun q => (p.2.ftype, q.2)))).flatten

/-- `get_status` (lines 1230-1294): count videos per status and folder type,
count completed documents, and derive the readiness flags and the
analysis-quality label. -/
def get_status (ud : UserData) : StatusInfo :=
  let vs := videosWithType ud
  let personal_completed :=
    vs.countP (fun p => p.1 = "personal".toList ∧ p.2.status = SourceStatus.completed)
  let inspiration_completed :=
    vs.countP (fun p => p.1 ≠ "personal".toList ∧ p.2.status = SourceStatus.completed)
  let completed_documents :=
    ud.documents.countP (fun p => p.2.status = SourceStatus.completed)
  let has_any_content :=
    0 < personal_completed ∨ 0 < inspiration_completed ∨ 0 < completed_documents
  let quality : PyStr :=
    if 0 < personal_completed ∧ 0 < inspiration_completed ∧ 0 < completed_documents then
      "premium".toList
    else if (0 < personal_completed ∧ 0 < inspiration_completed) ∨ 0 < completed_documents then
      "optimal".toList
    else if 0 < personal_completed ∨ 0 < inspiration_completed then "good".toList
    else "basic".toList
  { total_folders := ud.folders.length
    total_videos := vs.length
    completed_videos := vs.countP (fun p => p.2.status = SourceStatus.completed)
    processing_videos := vs.countP (fun p => p.2.status = SourceStatus.processing)
    error_videos := vs.countP (fun p => p.2.status = SourceStatus.error)
    total_documents := ud.documents.length
    completed_documents := completed_documents
    has_personal_videos := 0 < personal_completed
    has_inspiration_videos := 0 < inspiration_completed
    has_documents := 0 < completed_documents
    ready_for_analysis := has_any_content
    can_generate_script := has_any_content
    analysis_quality := quality }

/-- A video contributes its transcript when it is completed and the
transcript is a non-empty (truthy) string. -/
def completedTranscript (v : VideoData) : Option PyStr :=
  if v.status = SourceStatus.completed then
    match v.transcript with
    | some t => if t = [] then none else some t
    | none => none
  else none

/-- The `personal_transcripts` list gathered by `generate_from_prompt` /
`analyze_content`. -/
def personalTranscripts (ud : UserData) : List PyStr :=
  (ud.folders.map (fun p =>
    if p.2.ftype = "personal".toList then p.2.videos.filterMap (fun q => completedTranscript q.2)
    else [])).flatten

/-- The `inspiration_transcripts` list (every non-`personal` folder). -/
def inspirationTranscripts (ud : UserData) : List PyStr :=
  (ud.folders.map (fun p =>
    if p.2.ftype = "personal".toList then []
    else p.2.videos.filterMap (fun q => completedTranscript q.2))).flatten

/-- The `document_texts` list: completed documents with truthy text. -/
def documentTexts (ud : UserData) : List PyStr :=
  ud.documents.filterMap (fun p =>
    if p.2.status = SourceStatus.completed ∧ p.2.text ≠ [] then some p.2.text else none)

/-- The three analysis calls and the composing call of
`EnhancedScriptGenerator`, as an external LLM collaborator: each analysis
function maps the gathered texts to the profile text the LLM returned (or the
placeholder/error string the wrapper substitutes), and `gen` is
`generate_enhanced_script` on the three profiles plus the user prompt. -/
structure LlmOracle where
  style : List PyStr → PyStr
  insp : List PyStr → PyStr
  docs : List PyStr → PyStr
  gen : PyStr → PyStr → PyStr → PyStr → PyStr

/-- The canned style profile used when no personal videos exist
(`generate_from_prompt`, line 1091). -/
def styleDefault : PyStr :=
  "Professional, engaging YouTube style with clear explanations and good pacing.".toList

/-- The canned inspiration summary used when no inspiration videos exist
(line 1096). -/
def inspDefault : PyStr :=
  "Creating original content based on user request and best practices.".toList

/-- The canned document insights used when no documents exist (line 1101). -/
def docsDefault : PyStr :=
  "No document knowledge provided. Using general expertise and research.".toList

/-- The success payload of `generate_from_prompt`. -/
structure GenPayload where
  script : PyStr
  chat_session_id : Nat
  deriving DecidableEq, Repr

/-- `generate_from_prompt` (lines 1050-1172): reject an empty prompt; reuse
the analysis cache when populated, otherwise run the quick analysis
(substituting the canned defaults for absent categories, and skipping the
LLM call for them) and cache it; then compose the script, store it as the
current script and open a fresh chat session seeded with it.  The handler
never checks readiness: it answers success even with zero sources. -/
def generate_from_prompt (llm : LlmOracle) (ud : UserData) (prompt_raw : PyStr)
    (sid now : Nat) : UserData × Except PyStr GenPayload :=
  let user_prompt := pyStrip prompt_raw
  if user_prompt = [] then
    (ud, .error "Please provide a prompt for script generation".toList)
  else
    let analysed :=
      match ud.analysis_cache with
      | some c =>
          (c.style_profile, c.inspiration_summary, c.document_insights, ud)
      | none =>
          let pts := personalTranscripts ud
          let its := inspirationTranscripts ud
          let dts := documentTexts ud
          let sp := if pts = [] then styleDefault else llm.style pts
          let ins := if its = [] then inspDefault else llm.insp its
          let di := if dts = [] then docsDefault else llm.docs dts
          let c : AnalysisCache := ⟨sp, ins, di, pts.length, its.length, dts.length, now⟩
          (sp, ins, di, { ud with analysis_cache := some c })
    let sp := analysed.1
    let ins := analysed.2.1
    let di := analysed.2.2.1
    let ud1 := analysed.2.2.2
    let script := llm.gen sp ins di user_prompt
    let ud2 := { ud1 with
        current_script := some ⟨script, sp, ins, di, user_prompt, now⟩,
        chat_sessions := dictInsert sid ⟨[], [script], now⟩ ud1.chat_sessions }
    (ud2, .ok ⟨script, sid⟩)

/-- The cache write of `get_topic_insights` (lines 1593-1600): a successful
topic analysis stores its insight under the topic string; nothing else in the
code ever removes entries from `insights_cache` except `clear_cache`. -/
def cache_topic_insights (ud : UserData) (topic insights : PyStr)
    (videos documents now : Nat) : UserData :=
  { ud with insights_cache :=
      dictInsert topic ⟨insights, videos, documents, now⟩ ud.insights_cache }

/-! ## Supporting lemmas -/

/-- Whether a handler's `Except` response is the success arm. -/
def isOkResp {α : Type} : Except PyStr α → Bool
  | .ok _ => true
  | .error _ => false

theorem lookup_dictModify_self {α : Type} (k : Nat) (f : α → α) :
    ∀ d : List (Nat × α), (dictModify k f d).lookup k = (d.lookup k).map f
  | [] => by simp [dictModify]
  | (k', v) :: rest => by
      by_cases h : k = k'
      · subst h
        simp [dictModify, List.lookup]
      · have hbeq : (k == k') = false := by simp [h]
        simp [dictModify, h, List.lookup, hbeq, lookup_dictModify_self k f rest]

theorem lookup_dictModify_ne {α : Type} (k k' : Nat) (f : α → α) (hne : k' ≠ k) :
    ∀ d : List (Nat × α), (dictModify k f d).lookup k' = d.lookup k'
  | [] => by simp [dictModify]
  | (k'', v) :: rest => by
      by_cases h : k = k''
      · subst h
        have hbeq : (k' == k) = false := by simp [hne]
        simp [dictModify, List.lookup, hbeq]
      · simp [dictModify, h, List.lookup, lookup_dictModify_ne k k' f hne rest]

/-! ## Claim C1: cache invalidation on Source-set mutations -/

/-- A populated analysis cache used in concrete states. -/
def cache0 : AnalysisCache := ⟨"S".toList, "I".toList, "D".toList, 1, 0, 0, 0⟩

/-- A state whose analysis cache is populated, with no sources at all. -/
def udStale : UserData := { UserData.empty with analysis_cache := some cache0 }

/-- C1 counterexample: creating a folder is a structural mutation to the
Source set per the claim, yet `create_folder` succeeds and leaves the
populated `analysis_cache` in place — the claim's "adding ... a folder"
case does not hold on the code. -/
theorem create_folder_keeps_stale_cache :
    (create_folder udStale "New Folder".toList "personal".toList 1 0).2 = .ok 1
    ∧ (create_folder udStale "New Folder".toList "personal".toList 1 0).1.analysis_cache
        = some cache0 := by
  exact ⟨rfl, rfl⟩

/-- C1 (amended): every mutation that can change the completed Source set —
adding or deleting a video, uploading or deleting a document, deleting a
folder — clears the analysis cache when it succeeds; folder creation (which
adds no Source) is the one mutation that does not. -/
theorem source_set_mutations_clear_analysis_cache
    (ud : UserData) (fid vid did file_id now : Nat) (url filename : PyStr)
    (extracted : Option PyStr) :
    (isOkResp (add_video_to_folder ud fid url vid now).2 = true →
      (add_video_to_folder ud fid url vid now).1.analysis_cache = none)
    ∧ (isOkResp (delete_video_from_folder ud fid vid).2 = true →
      (delete_video_from_folder ud fid vid).1.analysis_cache = none)
    ∧ (isOkResp (upload_document ud file_id filename extracted now).2 = true →
      (upload_document ud file_id filename extracted now).1.analysis_cache = none)
    ∧ (isOkResp (delete_document ud did).2 = true →
      (delete_document ud did).1.analysis_cache = none)
    ∧ (isOkResp (delete_folder ud fid).2 = true →
      (delete_folder ud fid).1.analysis_cache = none) := by
  refine ⟨?_, ?_, ?_, ?_, ?_⟩
  · intro h
    unfold add_video_to_folder at h ⊢
    repeat' split <;> simp_all [isOkResp]
  · intro h
    unfold delete_video_from_folder at h ⊢
    repeat' split <;> simp_all [isOkResp]
  · intro h
    unfold upload_document at h ⊢
    repeat' split <;> simp_all [isOkResp]
  · intro h
    unfold delete_document at h ⊢
    repeat' split <;> simp_all [isOkResp]
  · intro h
    unfold delete_folder at h ⊢
    repeat' split <;> simp_all [isOkResp]

/-- A completed video used in concrete states. -/
def wVideo : VideoData :=
  ⟨"https://youtu.be/abc123".toList, "Video abc123".toList, .completed,
   some (List.replicate 60 'x'), none, 0⟩

/-- A personal folder holding `wVideo` under key 4. -/
def wFolder : Folder := ⟨"My Videos".toList, "personal".toList, [(4, wVideo)], 0⟩

/-- A completed document used in concrete states. -/
def wDoc : DocumentData :=
  ⟨"a.txt".toList, List.replicate 60 'y', ⟨60, 1, 1, 1⟩, "txt".toList, 0, .completed⟩

/-- A populated state: folder 3 with video 4, document 5, populated cache. -/
def udW : UserData := ⟨[(3, wFolder)], some cache0, [], none, [], [(5, wDoc)]⟩

/-- C1 witness: the five clearing operations each succeed on `udW` and leave
an empty analysis cache. -/
theorem source_set_mutations_clear_analysis_cache_witness :
    (add_video_to_folder udW 3 "https://youtu.be/abc123".toList 4 1).1.analysis_cache = none
    ∧ (delete_video_from_folder udW 3 4).1.analysis_cache = none
    ∧ (upload_document udW 6 "b.txt".toList (some (List.replicate 60 'z')) 1).1.analysis_cache = none
    ∧ (delete_document udW 5).1.analysis_cache = none
    ∧ (delete_folder udW 3).1.analysis_cache = none := by
  obtain ⟨h1, h2, h3, h4, h5⟩ :=
    source_set_mutations_clear_analysis_cache udW 3 4 5 6 1
      "https://youtu.be/abc123".toList "b.txt".toList (some (List.replicate 60 'z'))
  exact ⟨h1 (by decide), h2 (by decide), h3 (by decide), h4 (by decide), h5 (by decide)⟩

/-! ## Claim C9: the topic-insight cache survives Source mutations -/

/-- C9: none of the five source-mutating operations touches
`insights_cache` — topic insights are never auto-invalidated by Source
changes, on any path (success or error). -/
theorem source_mutations_preserve_insights_cache
    (ud : UserData) (fid vid did file_id now : Nat) (url filename : PyStr)
    (extracted : Option PyStr) :
    (add_video_to_folder ud fid url vid now).1.insights_cache = ud.insights_cache
    ∧ (delete_video_from_folder ud fid vid).1.insights_cache = ud.insights_cache
    ∧ (upload_document ud file_id filename extracted now).1.insights_cache = ud.insights_cache
    ∧ (delete_document ud did).1.insights_cache = ud.insights_cache
    ∧ (delete_folder ud fid).1.insights_cache = ud.insights_cache := by
  refine ⟨?_, ?_, ?_, ?_, ?_⟩
  · unfold add_video_to_folder
    dsimp only
    (repeat' split) <;> rfl
  · unfold delete_video_from_folder
    (repeat' split) <;> rfl
  · unfold upload_document
    dsimp only
    (repeat' split) <;> rfl
  · unfold delete_document
    (repeat' split) <;> rfl
  · unfold delete_folder
    (repeat' split) <;> rfl

/-! ## Claims C8 and C10: the commit operation `update_script` -/

/-- C8: with a current script, non-empty new text and a known chat session,
the commit replaces the script content and timestamp (all other script
fields unchanged), appends the text to that session's version list (its
message log unchanged, being carried over verbatim), touches no other
session, and leaves folders, documents and both caches alone. -/
theorem update_script_commit_behaviour
    (ud : UserData) (script_raw : PyStr) (sid now : Nat) (cs : Script) (sess : ChatSession)
    (hcs : ud.current_script = some cs)
    (hne : pyStrip script_raw ≠ [])
    (hsess : ud.chat_sessions.lookup sid = some sess) :
    (update_script ud script_raw (some sid) now).2 = .ok "Script updated successfully".toList
    ∧ (update_script ud script_raw (some sid) now).1.current_script
        = some { cs with content := pyStrip script_raw, timestamp := now }
    ∧ (update_script ud script_raw (some sid) now).1.chat_sessions.lookup sid
        = some { sess with script_versions := sess.script_versions ++ [pyStrip script_raw] }
    ∧ (∀ k, k ≠ sid → (update_script ud script_raw (some sid) now).1.chat_sessions.lookup k
        = ud.chat_sessions.lookup k)
    ∧ (update_script ud script_raw (some sid) now).1.folders = ud.folders
    ∧ (update_script ud script_raw (some sid) now).1.documents = ud.documents
    ∧ (update_script ud script_raw (some sid) now).1.analysis_cache = ud.analysis_cache
    ∧ (update_script ud script_raw (some sid) now).1.insights_cache = ud.insights_cache := by
  unfold update_script
  rw [if_neg hne]
  dsimp only
  rw [hcs]
  dsimp only
  have hsome : (ud.chat_sessions.lookup sid).isSome = true := by rw [hsess]; rfl
  rw [if_pos hsome]
  refine ⟨rfl, rfl, ?_, ?_, rfl, rfl, rfl, rfl⟩
  · rw [lookup_dictModify_self, hsess]
    rfl
  · intro k hk
    exact lookup_dictModify_ne sid k _ hk ud.chat_sessions

/-- A chat message used in concrete commit states. -/
def msg0 : ChatMessage := ⟨"make it shorter".toList, "done".toList, 0⟩

/-- A chat session with one message and one stored version. -/
def sess0 : ChatSession := ⟨[msg0], ["v0".toList], 0⟩

/-- A concrete current script. -/
def scr0 : Script :=
  ⟨"old content".toList, "S".toList, "I".toList, "D".toList, "prompt".toList, 0⟩

/-- A state with a current script and chat session 2. -/
def udC8 : UserData := ⟨[], none, [(2, sess0)], some scr0, [], []⟩

/-- C8 witness: committing `" new script "` into `udC8` strips it, replaces
the content and timestamp, and appends it to session 2's versions while its
message log survives. -/
theorem update_script_commit_behaviour_witness :
    (update_script udC8 " new script ".toList (some 2) 7).2
      = .ok "Script updated successfully".toList
    ∧ (update_script udC8 " new script ".toList (some 2) 7).1.current_script
        = some ⟨"new script".toList, "S".toList, "I".toList, "D".toList, "prompt".toList, 7⟩
    ∧ (update_script udC8 " new script ".toList (some 2) 7).1.chat_sessions.lookup 2
        = some ⟨[msg0], ["v0".toList, "new script".toList], 0⟩ := by
  obtain ⟨h1, h2, h3, _⟩ :=
    update_script_commit_behaviour udC8 " new script ".toList 2 7 scr0 sess0 rfl (by decide) rfl
  exact ⟨h1, h2, h3⟩

/-- A state with chat session 2 but no current script. -/
def udC10 : UserData := ⟨[], none, [(2, sess0)], none, [], []⟩

/-- C10: with no current script, the commit still answers
"Script updated successfully", creates no current script, and yet appends
the supplied text to the referenced chat session's version list. -/
theorem update_script_without_current_script
    (ud : UserData) (script_raw : PyStr) (sid now : Nat) (sess : ChatSession)
    (hcs : ud.current_script = none)
    (hne : pyStrip script_raw ≠ [])
    (hsess : ud.chat_sessions.lookup sid = some sess) :
    (update_script ud script_raw (some sid) now).2 = .ok "Script updated successfully".toList
    ∧ (update_script ud script_raw (some sid) now).1.current_script = none
    ∧ (update_script ud script_raw (some sid) now).1.chat_sessions.lookup sid
        = some { sess with script_versions := sess.script_versions ++ [pyStrip script_raw] } := by
  unfold update_script
  rw [if_neg hne]
  dsimp only
  rw [hcs]
  dsimp only
  have hsome : (ud.chat_sessions.lookup sid).isSome = true := by rw [hsess]; rfl
  rw [if_pos hsome]
  refine ⟨rfl, hcs, ?_⟩
  rw [lookup_dictModify_self, hsess]
  rfl

/-- C10 witness: committing into `udC10` (no current script) succeeds,
leaves the current script absent, and appends to session 2's versions. -/
theorem update_script_without_current_script_witness :
    (update_script udC10 "fresh text".toList (some 2) 7).2
      = .ok "Script updated successfully".toList
    ∧ (update_script udC10 "fresh text".toList (some 2) 7).1.current_script = none
    ∧ (update_script udC10 "fresh text".toList (some 2) 7).1.chat_sessions.lookup 2
        = some ⟨[msg0], ["v0".toList, "fresh text".toList], 0⟩ := by
  obtain ⟨h1, h2, h3⟩ :=
    update_script_without_current_script udC10 "fresh text".toList 2 7 sess0 rfl (by decide) rfl
  exact ⟨h1, h2, h3⟩

/-! ## Claim C4: the 50-character extraction minimum -/

/-- C4: when the chosen extraction method yields no text or text whose
stripped length is under 50, `process_document` reports the
empty-or-unreadable failure and `upload_document` leaves the entire state —
in particular the documents collection — unchanged, answering that same
error. -/
theorem short_extraction_rejected_and_not_stored
    (ud : UserData) (file_id now : Nat) (filename : PyStr) (extracted : Option PyStr)
    (hallow : allowed_file filename = true)
    (hshort : ∀ t, extracted = some t → (pyStrip t).length < 50) :
    process_document filename extracted = .error emptyUnreadableMsg
    ∧ upload_document ud file_id filename extracted now = (ud, .error emptyUnreadableMsg) := by
  have hext : allowedExtensions.contains (pyLower (extOf filename)) = true := by
    unfold allowed_file at hallow
    exact (Bool.and_eq_true _ _ |>.mp hallow).2
  have hfn : filename ≠ [] := by
    intro h
    subst h
    simp [allowed_file] at hallow
  have hproc : process_document filename extracted = .error emptyUnreadableMsg := by
    unfold process_document
    rw [if_neg (not_not_intro hext)]
    cases extracted with
    | none => rfl
    | some t =>
        dsimp only
        rw [if_pos (Or.inr (hshort t rfl))]
  refine ⟨hproc, ?_⟩
  unfold upload_document
  rw [if_neg hfn, if_neg (by simp [hallow]), hproc]

/-- C4 witness: a 40-character `.txt` upload fails with the
empty-or-unreadable error and stores nothing (state `udW` is returned
unchanged). -/
theorem short_extraction_rejected_and_not_stored_witness :
    process_document "notes.txt".toList (some (List.replicate 40 'a'))
      = .error emptyUnreadableMsg
    ∧ upload_document udW 6 "notes.txt".toList (some (List.replicate 40 'a')) 1
        = (udW, .error emptyUnreadableMsg) := by
  exact short_extraction_rejected_and_not_stored udW 6 1 "notes.txt".toList
    (some (List.replicate 40 'a')) (by decide)
    (by intro t ht; injection ht with h; subst h; decide)

/-! ## Claim C7: PDF extraction order, fallback condition and threshold -/

/-- Fifty non-whitespace characters. -/
def a50 : PyStr := List.replicate 50 'a'

/-- Fifty-one non-whitespace characters. -/
def a51 : PyStr := List.replicate 51 'a'

/-- C7 counterexample: PyMuPDF completes with exactly 50 stripped characters
and PyPDF2 completes returning nothing; the claim ("fallback exactly when
fewer than 50"; failure only when both fail or under 50) predicts success
with the 50-character text, but the code requires strictly more than 50 and
returns `None`. -/
theorem pdf_fifty_char_boundary_cx :
    (pyStrip a50).length = 50
    ∧ extract_text_from_pdf ⟨a50, true⟩ ⟨[], true⟩ = none := by
  exact ⟨by decide, rfl⟩

/-- C7 (amended): PyMuPDF is consulted first and its text returned without
fallback only when it completed with *more than* 50 characters after
stripping; otherwise PyPDF2 runs and its text is *appended* to PyMuPDF's;
a successful result always has more than 50 stripped characters; when
PyPDF2 raises, or the combined text still has at most 50 stripped
characters, extraction yields `None`, which `process_document` reports as
the empty-or-unreadable failure. -/
theorem pdf_extraction_fallback_behaviour (mupdf pypdf : ExtAttempt) :
    (mupdf.ok = true → 50 < (pyStrip mupdf.text).length →
      extract_text_from_pdf mupdf pypdf = some mupdf.text)
    ∧ (∀ t, extract_text_from_pdf mupdf pypdf = some t → 50 < (pyStrip t).length)
    ∧ (¬ (mupdf.ok = true ∧ 50 < (pyStrip mupdf.text).length) → pypdf.ok = false →
      extract_text_from_pdf mupdf pypdf = none)
    ∧ (¬ (mupdf.ok = true ∧ 50 < (pyStrip mupdf.text).length) → pypdf.ok = true →
      extract_text_from_pdf mupdf pypdf
        = if 50 < (pyStrip (mupdf.text ++ pypdf.text)).length then some (mupdf.text ++ pypdf.text)
          else none)
    ∧ (extract_text_from_pdf mupdf pypdf = none →
      process_document "file.pdf".toList (extract_text_from_pdf mupdf pypdf)
        = .error emptyUnreadableMsg) := by
  refine ⟨?_, ?_, ?_, ?_, ?_⟩
  · intro hok hlen
    unfold extract_text_from_pdf
    rw [if_pos (by simp [hok, hlen])]
  · intro t ht
    unfold extract_text_from_pdf at ht
    split at ht
    · next h =>
      cases ht
      exact of_decide_eq_true (Bool.and_eq_true _ _ |>.mp h).2
    · split at ht
      · dsimp only at ht
        split at ht
        · next h => cases ht; exact h
        · cases ht
      · cases ht
  · intro hnot hko
    unfold extract_text_from_pdf
    have hcond : ¬ ((mupdf.ok && decide (50 < (pyStrip mupdf.text).length)) = true) := by
      intro h
      obtain ⟨h1, h2⟩ := Bool.and_eq_true _ _ |>.mp h
      exact hnot ⟨h1, of_decide_eq_true h2⟩
    rw [if_neg hcond, if_neg (by simp [hko])]
  · intro hnot hok
    unfold extract_text_from_pdf
    have hcond : ¬ ((mupdf.ok && decide (50 < (pyStrip mupdf.text).length)) = true) := by
      intro h
      obtain ⟨h1, h2⟩ := Bool.and_eq_true _ _ |>.mp h
      exact hnot ⟨h1, of_decide_eq_true h2⟩
    rw [if_neg hcond, if_pos hok]
  · intro hn
    rw [hn]
    rfl

/-- C7 witness: PyMuPDF succeeding with 51 stripped characters is returned
as-is with no fallback, and when PyMuPDF raises, PyPDF2's 51-character text
is used via the append path. -/
theorem pdf_extraction_fallback_behaviour_witness :
    extract_text_from_pdf ⟨a51, true⟩ ⟨[], true⟩ = some a51
    ∧ extract_text_from_pdf ⟨[], false⟩ ⟨a51, true⟩ = some a51 := by
  obtain ⟨h1, _, _, _, _⟩ := pdf_extraction_fallback_behaviour ⟨a51, true⟩ ⟨[], true⟩
  obtain ⟨_, _, _, h4, _⟩ := pdf_extraction_fallback_behaviour ⟨[], false⟩ ⟨a51, true⟩
  refine ⟨h1 rfl (by decide), ?_⟩
  rw [h4 (by decide) rfl]
  decide

/-! ## Claim C3: URL id extraction and the validation bug -/

/-- C3: the id `abc123` is extracted from `https://youtu.be/abc123` as the
claim states; but `https://notyoutube.com/x` does NOT fail validation —
its netloc `notyoutube.com` contains `youtube.com` as a substring, so
`validate_youtube_url` answers `true` and `add_video_to_folder` accepts the
URL (storing a pending video) instead of rejecting it. -/
theorem video_url_extraction_and_validation :
    extract_video_id "https://youtu.be/abc123".toList = some "abc123".toList
    ∧ urlNetloc "https://notyoutube.com/x".toList = "notyoutube.com".toList
    ∧ containsSub "youtube.com".toList "notyoutube.com".toList = true
    ∧ validate_youtube_url "https://notyoutube.com/x".toList = true
    ∧ (add_video_to_folder udW 3 "https://notyoutube.com/x".toList 8 1).2 = .ok 8 := by
  refine ⟨by decide, by decide, by decide, by decide, rfl⟩

/-! ## Claim C5: the retry ceiling under a persistent rate limit -/

/-- `attemptLoop` unfolded one step (for rewriting with a concrete fuel). -/
theorem attemptLoop_succ (o : FetchOracle) (mr rd attempt fuel : Nat) :
    attemptLoop o mr rd attempt (fuel + 1)
      = match attemptStep o mr attempt with
        | .final r => (r, 1, if 0 < attempt then [rd * (attempt + 1)] else [])
        | .retryNext =>
            let rec_ := attemptLoop o mr rd (attempt + 1) fuel
            (rec_.1, rec_.2.1 + 1, (if 0 < attempt then [rd * (attempt + 1)] else []) ++ rec_.2.2) := by
  rfl

/-- C5: when every attempt's remote fetch raises an error classified as a
rate limit ("quota"/"rate"/"429" in its lowered text), extraction on a valid
URL makes exactly 3 attempts, sleeping the linearly increasing backoffs 4
then 6 seconds between them, and returns the rate-limit error message —
the loop terminates. -/
theorem persistent_rate_limit_retry_ceiling
    (o : FetchOracle) (url : PyStr)
    (hurl : (extract_video_id url).isSome = true)
    (hrate : ∀ k, k < 3 → ∃ m, o.direct k = .exn m ∧ isRateMsg m = true) :
    extract_transcript_details o url 3 2
      = (.error "API rate limit exceeded. Please try again in a few minutes".toList, 3, [4, 6]) := by
  obtain ⟨m0, hd0, hr0⟩ := hrate 0 (by omega)
  obtain ⟨m1, hd1, hr1⟩ := hrate 1 (by omega)
  obtain ⟨m2, hd2, hr2⟩ := hrate 2 (by omega)
  have s0 : attemptStep o 3 0 = .retryNext := by
    unfold attemptStep classifyOuterExn
    rw [hd0]
    dsimp only
    rw [if_pos hr0, if_pos (by omega : (0 : Nat) < 3 - 1)]
  have s1 : attemptStep o 3 1 = .retryNext := by
    unfold attemptStep classifyOuterExn
    rw [hd1]
    dsimp only
    rw [if_pos hr1, if_pos (by omega : (1 : Nat) < 3 - 1)]
  have s2 : attemptStep o 3 2
      = .final (.error "API rate limit exceeded. Please try again in a few minutes".toList) := by
    unfold attemptStep classifyOuterExn
    rw [hd2]
    dsimp only
    rw [if_pos hr2, if_neg (by omega : ¬ (2 : Nat) < 3 - 1)]
  unfold extract_transcript_details
  cases hvid : extract_video_id url with
  | none => rw [hvid] at hurl; simp at hurl
  | some v =>
    show attemptLoop o 3 2 0 3 = _
    rw [show (3 : Nat) = 2 + 1 from rfl]
    rw [attemptLoop_succ, s0]
    dsimp only
    rw [show (2 : Nat) = 1 + 1 from rfl, attemptLoop_succ, s1]
    dsimp only
    rw [show (1 : Nat) = 0 + 1 from rfl, attemptLoop_succ, s2]
    rfl

/-- A provider that always raises an HTTP 429 error. -/
def rateLimitedOracle : FetchOracle :=
  ⟨fun _ => .exn "HTTP Error 429: Too Many Requests".toList, fun _ => .noneAvailable⟩

/-- C5 witness: under the always-429 provider, the valid URL makes exactly
3 attempts with backoffs 4 and 6 and ends in the rate-limit message. -/
theorem persistent_rate_limit_retry_ceiling_witness :
    extract_transcript_details rateLimitedOracle "https://youtu.be/abc123".toList 3 2
      = (.error "API rate limit exceeded. Please try again in a few minutes".toList, 3, [4, 6]) := by
  exact persistent_rate_limit_retry_ceiling rateLimitedOracle "https://youtu.be/abc123".toList
    (by decide) (fun k _ => ⟨"HTTP Error 429: Too Many Requests".toList, rfl, by decide⟩)

/-! ## Claim C2: zero completed Sources -/

theorem mem_videosWithType {ud : UserData} {r : PyStr × VideoData}
    (h : r ∈ videosWithType ud) :
    ∃ p ∈ ud.folders, ∃ q ∈ p.2.videos, r = (p.2.ftype, q.2) := by
  unfold videosWithType at h
  rw [List.mem_flatten] at h
  obtain ⟨l, hl, hr⟩ := h
  rw [List.mem_map] at hl
  obtain ⟨p, hp, rfl⟩ := hl
  rw [List.mem_map] at hr
  obtain ⟨q, hq, rfl⟩ := hr
  exact ⟨p, hp, q, hq, rfl⟩

theorem personalTranscripts_eq_nil {ud : UserData}
    (h : ∀ p ∈ ud.folders, ∀ q ∈ p.2.videos, q.2.status ≠ SourceStatus.completed) :
    personalTranscripts ud = [] := by
  unfold personalTranscripts
  rw [List.flatten_eq_nil_iff]
  intro l hl
  rw [List.mem_map] at hl
  obtain ⟨p, hp, rfl⟩ := hl
  split
  · rw [List.filterMap_eq_nil_iff]
    intro q hq
    unfold completedTranscript
    rw [if_neg (h p hp q hq)]
  · rfl

theorem inspirationTranscripts_eq_nil {ud : UserData}
    (h : ∀ p ∈ ud.folders, ∀ q ∈ p.2.videos, q.2.status ≠ SourceStatus.completed) :
    inspirationTranscripts ud = [] := by
  unfold inspirationTranscripts
  rw [List.flatten_eq_nil_iff]
  intro l hl
  rw [List.mem_map] at hl
  obtain ⟨p, hp, rfl⟩ := hl
  split
  · rfl
  · rw [List.filterMap_eq_nil_iff]
    intro q hq
    unfold completedTranscript
    rw [if_neg (h p hp q hq)]

theorem documentTexts_eq_nil {ud : UserData}
    (h : ∀ p ∈ ud.documents, p.2.status ≠ SourceStatus.completed) :
    documentTexts ud = [] := by
  unfold documentTexts
  rw [List.filterMap_eq_nil_iff]
  intro p hp
  rw [if_neg (fun hc => h p hp hc.1)]

/-- C2 (amended): with zero completed Sources the status endpoint does
report `ready_for_analysis = false` and `can_generate_script = false`, but
script generation with a non-empty prompt is NOT rejected: it answers
success, and (when no stale cache sits around) builds the script from the
three canned placeholder profiles, caching them and storing the current
script. -/
theorem zero_source_status_and_generation
    (llm : LlmOracle) (ud : UserData) (prompt_raw : PyStr) (sid now : Nat)
    (hvid : ∀ p ∈ ud.folders, ∀ q ∈ p.2.videos, q.2.status ≠ SourceStatus.completed)
    (hdoc : ∀ p ∈ ud.documents, p.2.status ≠ SourceStatus.completed) :
    (get_status ud).ready_for_analysis = false
    ∧ (get_status ud).can_generate_script = false
    ∧ (pyStrip prompt_raw ≠ [] →
        isOkResp (generate_from_prompt llm ud prompt_raw sid now).2 = true)
    ∧ (pyStrip prompt_raw ≠ [] → ud.analysis_cache = none →
        generate_from_prompt llm ud prompt_raw sid now
          = ({ ud with
                analysis_cache := some ⟨styleDefault, inspDefault, docsDefault, 0, 0, 0, now⟩,
                current_script := some
                  ⟨llm.gen styleDefault inspDefault docsDefault (pyStrip prompt_raw),
                   styleDefault, inspDefault, docsDefault, pyStrip prompt_raw, now⟩,
                chat_sessions := dictInsert sid
                  ⟨[], [llm.gen styleDefault inspDefault docsDefault (pyStrip prompt_raw)], now⟩
                  ud.chat_sessions },
             .ok ⟨llm.gen styleDefault inspDefault docsDefault (pyStrip prompt_raw), sid⟩)) := by
  have hvt : ∀ r ∈ videosWithType ud, r.2.status ≠ SourceStatus.completed := by
    intro r hr
    obtain ⟨p, hp, q, hq, rfl⟩ := mem_videosWithType hr
    exact hvid p hp q hq
  have hpc : (videosWithType ud).countP
      (fun p => decide (p.1 = "personal".toList ∧ p.2.status = SourceStatus.completed)) = 0 := by
    rw [List.countP_eq_zero]
    intro r hr
    simp only [decide_eq_true_eq, not_and]
    intro _
    exact hvt r hr
  have hic : (videosWithType ud).countP
      (fun p => decide (¬ p.1 = "personal".toList ∧ p.2.status = SourceStatus.completed)) = 0 := by
    rw [List.countP_eq_zero]
    intro r hr
    simp only [decide_eq_true_eq, not_and]
    intro _
    exact hvt r hr
  have hdc : ud.documents.countP
      (fun p => decide (p.2.status = SourceStatus.completed)) = 0 := by
    rw [List.countP_eq_zero]
    intro r hr
    simp only [decide_eq_true_eq]
    exact hdoc r hr
  have hready : (get_status ud).ready_for_analysis = false := by
    unfold get_status
    dsimp only
    rw [hpc, hic, hdc]
    rfl
  have hcan : (get_status ud).can_generate_script = false := by
    unfold get_status
    dsimp only
    rw [hpc, hic, hdc]
    rfl
  refine ⟨hready, hcan, ?_, ?_⟩
  · intro hne
    unfold generate_from_prompt
    rw [if_neg hne]
    cases ud.analysis_cache <;> rfl
  · intro hne hcache
    unfold generate_from_prompt
    rw [if_neg hne, hcache]
    dsimp only
    rw [personalTranscripts_eq_nil hvid, inspirationTranscripts_eq_nil hvid,
      documentTexts_eq_nil hdoc]
    rfl

/-- A constant LLM collaborator used in concrete runs. -/
def llmConst : LlmOracle :=
  ⟨fun _ => "STYLE".toList, fun _ => "INSP".toList, fun _ => "DOCS".toList,
   fun _ _ _ _ => "SCRIPT".toList⟩

/-- C2 counterexample: on a fresh empty session the status flags are both
`false`, yet `generate_from_prompt` with a non-empty prompt answers success
(with a script built from the three placeholder profiles) instead of
failing with a "no content" error. -/
theorem zero_source_generation_succeeds :
    (get_status UserData.empty).ready_for_analysis = false
    ∧ (get_status UserData.empty).can_generate_script = false
    ∧ (generate_from_prompt llmConst UserData.empty "Make a video about cats".toList 1 5).2
        = .ok ⟨"SCRIPT".toList, 1⟩
    ∧ (generate_from_prompt llmConst UserData.empty "Make a video about cats".toList 1 5).1.current_script
        = some ⟨"SCRIPT".toList, styleDefault, inspDefault, docsDefault,
            "Make a video about cats".toList, 5⟩ := by
  exact ⟨rfl, rfl, rfl, rfl⟩

/-- C2 witness: the amended theorem applied to the empty state and the
constant LLM collaborator. -/
theorem zero_source_status_and_generation_witness :
    (get_status UserData.empty).ready_for_analysis = false
    ∧ isOkResp (generate_from_prompt llmConst UserData.empty "cats".toList 1 5).2 = true
    ∧ (generate_from_prompt llmConst UserData.empty "cats".toList 1 5).1.analysis_cache
        = some ⟨styleDefault, inspDefault, docsDefault, 0, 0, 0, 5⟩ := by
  obtain ⟨h1, _, h3, h4⟩ :=
    zero_source_status_and_generation llmConst UserData.empty "cats".toList 1 5
      (by intro p hp; simp [UserData.empty] at hp)
      (by intro p hp; simp [UserData.empty] at hp)
  refine ⟨h1, h3 (by decide), ?_⟩
  rw [h4 (by decide) rfl]

/-! ## Claim C6: the chunk budgeter's bound and no-op cases -/

/-- C6 (amended): the budgeter is the identity whenever the separator-join
is within the budget (in particular on any single text within the budget);
in the sampling branch each over-share text keeps the head half and tail
half of its per-item share around the marker; and the output length is
bounded by `maxChars` plus *per-item* marker/separator overhead — an
overhead linear in the number of texts, not a fixed constant. -/
theorem chunk_budget_bound_and_sampling
    (sep marker : PyStr) (maxChars : Nat) (texts : List PyStr) :
    ((pyJoin sep texts).length ≤ maxChars → chunkBudget sep marker maxChars texts = pyJoin sep texts)
    ∧ (∀ t : PyStr, t.length ≤ maxChars → chunkBudget sep marker maxChars [t] = t)
    ∧ (2 * texts.length ≤ maxChars →
        (chunkBudget sep marker maxChars texts).length
          ≤ maxChars + texts.length * marker.length + (texts.length - 1) * sep.length)
    ∧ (∀ chunk (t : PyStr), chunk < t.length → 1 ≤ chunk / 2 →
        sampleItem marker chunk t
          = t.take (chunk / 2) ++ marker ++ t.drop (t.length - chunk / 2)) := by
  refine ⟨?_, ?_, ?_, ?_⟩
  · intro h
    unfold chunkBudget
    rw [if_neg (Nat.not_lt.mpr h)]
  · intro t ht
    unfold chunkBudget
    rw [if_neg (Nat.not_lt.mpr (show (pyJoin sep [t]).length ≤ maxChars from ht))]
    rfl
  · intro h2
    unfold chunkBudget
    dsimp only
    split
    · next hover =>
      have hn1 : 1 ≤ texts.length := by
        rcases Nat.eq_zero_or_pos texts.length with h0 | h1
        · rw [List.length_eq_zero.mp h0] at hover
          simp [pyJoin] at hover
        · exact h1
      generalize hch : (if 1 < texts.length then maxChars / texts.length else maxChars) = chunk
      have hchunk2 : 2 ≤ chunk := by
        rw [← hch]
        split
        · next hgt => exact (Nat.le_div_iff_mul_le (by omega)).mpr (by omega)
        · next hle => omega
      have hnchunk : texts.length * chunk ≤ maxChars := by
        rw [← hch]
        split
        · next hgt =>
          calc texts.length * (maxChars / texts.length)
              = maxChars / texts.length * texts.length := by ring
            _ ≤ maxChars := Nat.div_mul_le_self _ _
        · next hle =>
          have hone : texts.length = 1 := by omega
          rw [hone, one_mul]
      rw [pyJoin_length, List.length_map]
      have hsum : ((texts.map (sampleItem marker chunk)).map List.length).sum
          ≤ texts.length * (chunk + marker.length) := by
        have hb : ∀ x ∈ (texts.map (sampleItem marker chunk)).map List.length,
            x ≤ chunk + marker.length := by
          intro x hx
          rw [List.mem_map] at hx
          obtain ⟨y, hy, rfl⟩ := hx
          rw [List.mem_map] at hy
          obtain ⟨t, ht, rfl⟩ := hy
          exact sampleItem_length_le marker chunk t hchunk2
        have hcard := List.sum_le_card_nsmul
          ((texts.map (sampleItem marker chunk)).map List.length) (chunk + marker.length) hb
        simpa [smul_eq_mul] using hcard
      have hdistrib : texts.length * (chunk + marker.length)
          = texts.length * chunk + texts.length * marker.length := by ring
      have hcomm : sep.length * (texts.length - 1) = (texts.length - 1) * sep.length := by ring
      omega
    · next hunder =>
      rw [Nat.not_lt] at hunder
      have hm : 0 ≤ texts.length * marker.length := Nat.zero_le _
      have hs : 0 ≤ (texts.length - 1) * sep.length := Nat.zero_le _
      omega
  · intro chunk t h1 h2
    unfold sampleItem
    rw [if_pos h1]
    unfold pyTail
    rw [if_neg (by omega : ¬ chunk / 2 = 0)]

/-- An 80-character text. -/
def t80 : PyStr := List.replicate 80 'a'

/-- C6 counterexample: 1500 texts of 80 characters against the document
budget `M = 60000`.  The join (161972 chars) exceeds the budget, so every
text is sampled — yet the output is 143972 characters, more than `2 × M`:
the marker/separator overhead is per item, so the output is not bounded by
`M` plus any small constant. -/
theorem document_budget_not_bounded_by_constant :
    (documentBudget (List.replicate 1500 t80)).length = 143972
    ∧ 2 * 60000 < (documentBudget (List.replicate 1500 t80)).length := by
  have ht80 : t80.length = 80 := by decide
  have hsep28 : docSep.length = 28 := by decide
  have hjoin : (pyJoin docSep (List.replicate 1500 t80)).length = 161972 := by
    rw [pyJoin_length, List.map_replicate, ht80, List.sum_replicate]
    norm_num [smul_eq_mul, hsep28, List.length_replicate]
  have hsamp : (sampleItem docMarker 40 t80).length = 68 := by decide
  have hchunk : (if 1 < (List.replicate 1500 t80).length
      then 60000 / (List.replicate 1500 t80).length else 60000) = 40 := by
    rw [List.length_replicate, if_pos (by norm_num)]
  have hlen : (documentBudget (List.replicate 1500 t80)).length = 143972 := by
    unfold documentBudget chunkBudget
    dsimp only
    rw [hjoin, if_pos (by norm_num), hchunk, List.map_replicate, pyJoin_length,
      List.map_replicate, hsamp, List.sum_replicate]
    norm_num [smul_eq_mul, hsep28, List.length_replicate]
  exact ⟨hlen, by omega⟩

/-- C6 witness: a single short text is returned unchanged, the bound holds
on it, and an over-share text keeps the head and tail halves of its share
around the marker. -/
theorem chunk_budget_bound_and_sampling_witness :
    chunkBudget docSep docMarker 60000 ["hello".toList] = "hello".toList
    ∧ (chunkBudget docSep docMarker 60000 ["hello".toList]).length
        ≤ 60000 + 1 * docMarker.length + 0 * docSep.length
    ∧ sampleItem docMarker 40 t80 = t80.take 20 ++ docMarker ++ t80.drop 60 := by
  obtain ⟨h1, h2, h3, h4⟩ :=
    chunk_budget_bound_and_sampling docSep docMarker 60000 ["hello".toList]
  exact ⟨h2 "hello".toList (by decide), h3 (by decide), h4 40 t80 (by decide) (by decide)⟩
